import Mathlib

/-!
Verification of the data-ingestion-and-visualization pipeline of the
pacmap-rs example program (`src/main.rs`).

The embedding models the pipeline shallowly:
* numeric arrays are flat row-major element lists together with a shape,
  exactly as `ndarray` stores them;
* fallible Rust code (`Result`) becomes `Except RsError`;
* an `ndarray` method that panics on bad indices is modelled by the
  distinguished error value `RsError.panic`;
* the external collaborators (HTTP fetch via `reqwest`, NPY decoding via
  `ndarray_npy`, the PaCMAP reduction) are parameters of the pipeline or
  are modelled from the specification where so noted.

Element types are kept generic (`α`): every operation verified here only
moves elements around, so `f32` values are never computed with.
-/

/-- Error kinds of the pipeline, following the specification's taxonomy.
`panic` models a Rust panic (e.g. an out-of-bounds `ndarray` column
access), which is not a signalled error value. -/
inductive RsError where
  | transfer_error
  | parse_error
  | shape_mismatch_error
  | dimension_mismatch_error
  | embedding_error
  | panic
deriving DecidableEq, Repr

/-- An n-dimensional numeric array: a shape and the row-major element
buffer, as produced by `ndarray_npy` parsing. -/
structure RawArray (α : Type) where
  shape : List Nat
  data : List α
deriving DecidableEq, Repr

/-- The `RawArray` invariant: total element count equals the product of
the shape dimensions. -/
def RawArray.wf (a : RawArray α) : Prop :=
  a.data.length = a.shape.prod

instance (a : RawArray α) : Decidable a.wf := by
  unfold RawArray.wf; infer_instance

/-- A 2-D array (`ndarray::Array2` / `ArrayView2`): row and column counts
plus the row-major element buffer. -/
structure FMatrix (α : Type) where
  n_rows : Nat
  n_cols : Nat
  data : List α
deriving DecidableEq, Repr

/-- The 2-D array invariant: buffer length equals `n_rows * n_cols`. -/
def FMatrix.wf (m : FMatrix α) : Prop :=
  m.data.length = m.n_rows * m.n_cols

/-- Element at row `i`, column `j` of a row-major 2-D array. -/
def FMatrix.entry [Inhabited α] (m : FMatrix α) (i j : Nat) : α :=
  m.data.getD (i * m.n_cols + j) default

/-- `embedding.column(j).to_vec()`: the `j`-th column as a list, one entry
per row in row order.  `ndarray` panics when `j` is out of bounds. -/
def FMatrix.column [Inhabited α] (m : FMatrix α) (j : Nat) :
    Except RsError (List α) :=
  if j < m.n_cols then
    .ok ((List.range m.n_rows).map fun i => m.entry i j)
  else
    .error .panic

/-- `main.rs` lines 44-47: `n_samples = shape[0]`, `n_features =
shape[1..].product()`, then `to_shape((n_samples, n_features))`, which
fails (`?`) when the product of the new shape differs from the element
count and otherwise reinterprets the buffer unchanged.  Indexing `shape[0]`
on a rank-0 array would panic. -/
def to_feature_matrix (raw : RawArray α) : Except RsError (FMatrix α) :=
  match raw.shape with
  | [] => .error .panic
  | n_samples :: rest =>
    let n_features := rest.prod
    if n_samples * n_features = raw.data.length then
      .ok ⟨n_samples, n_features, raw.data⟩
    else
      .error .shape_mismatch_error

/-- Marker mode of the plotly trace; the source sets `Mode::Markers`. -/
inductive PlotMode where
  | markers
deriving DecidableEq, Repr

/-- The scatter payload built by `create_scatter_plot`: coordinate lists,
the per-point color keys, and the fixed presentation attributes set in the
source (`size(2)`, `show_scale(true)`, `Mode::Markers`). -/
structure ScatterData (α : Type) where
  x : List α
  y : List α
  color_labels : List Int
  marker_size : Nat
  show_scale : Bool
  mode : PlotMode
deriving DecidableEq, Repr

/-- `main.rs` lines 93-109: extract column 0 as x and column 1 as y,
attach the labels unchanged as the color keys, and fix marker size 2,
a shown color scale and markers mode.  No validation is performed. -/
def create_scatter_plot [Inhabited α] (embedding : FMatrix α)
    (labels : List Int) : Except RsError (ScatterData α) :=
  match embedding.column 0 with
  | .error e => .error e
  | .ok x =>
    match embedding.column 1 with
    | .error e => .error e
    | .ok y => .ok ⟨x, y, labels, 2, true, .markers⟩

/-- The PaCMAP configuration fields set by the source. Ratios are modelled
as exact rationals (`0.5` and `2.0` are exactly representable floats). -/
structure Configuration where
  embedding_dimensions : Nat
  override_neighbors : Option Nat
  mid_near_ratio : ℚ
  far_pair_ratio : ℚ
deriving DecidableEq, Repr

def Configuration.set_embedding_dimensions (c : Configuration) (n : Nat) :
    Configuration := { c with embedding_dimensions := n }

def Configuration.set_override_neighbors (c : Configuration) (n : Nat) :
    Configuration := { c with override_neighbors := some n }

def Configuration.set_mid_near_ratio (c : Configuration) (r : ℚ) :
    Configuration := { c with mid_near_ratio := r }

def Configuration.set_far_pair_ratio (c : Configuration) (r : ℚ) :
    Configuration := { c with far_pair_ratio := r }

/-- `main.rs` lines 53-58: the builder chain setting the four tuning
values.  `defaults` stands for whatever state `Configuration::builder()`
starts from; the chain overrides every field this core reads. -/
def build_config (defaults : Configuration) : Configuration :=
  (((defaults.set_embedding_dimensions 2).set_override_neighbors
      10).set_mid_near_ratio (1/2)).set_far_pair_ratio 2

/-- Element types an NPY payload may declare.  The two loaders of the
source accept exactly `f32` (features) and `i32` (labels). -/
inductive DType where
  | f32
  | i32
  | other
deriving DecidableEq, Repr

/-- A downloaded byte payload viewed through the NPY format: either its
header is malformed, or it declares an element type and shape followed by
the row-major elements. -/
inductive NpyPayload (α : Type) where
  | malformed
  | well_formed (dtype : DType) (shape : List Nat) (elems : List α)
deriving DecidableEq, Repr

/-- Modelled from the spec: the NPY decoding performed by the external
`ndarray_npy` crate (`ArrayN::read_npy`), which is not part of this
repository's sources.  Per §4.1 it rejects a malformed header, an element
type other than the expected one, a declared rank different from the
expected rank, and a declared shape whose element count disagrees with the
payload; otherwise it yields the typed array. -/
def read_npy (expected_dtype : DType) (expected_rank : Nat)
    (p : NpyPayload α) : Except RsError (RawArray α) :=
  match p with
  | .malformed => .error .parse_error
  | .well_formed d s e =>
    if d ≠ expected_dtype then .error .parse_error
    else if s.length ≠ expected_rank then .error .parse_error
    else if e.length ≠ s.prod then .error .parse_error
    else .ok ⟨s, e⟩

/-- `main.rs` lines 121-135: one HTTP fetch (its outcome is the `fetch`
argument; `.error` is a failed retrieval), then NPY-parse the bytes as a
rank-2 `f32` array.  There is a single attempt: the one `fetch` outcome
fully determines the result. -/
def download_and_load_array2 (fetch : Except Unit (NpyPayload α)) :
    Except RsError (RawArray α) :=
  match fetch with
  | .error _ => .error .transfer_error
  | .ok p => read_npy .f32 2 p

/-- `main.rs` lines 147-161: one HTTP fetch, then NPY-parse the bytes as a
rank-1 `i32` array. -/
def download_and_load_array1 (fetch : Except Unit (NpyPayload Int)) :
    Except RsError (RawArray Int) :=
  match fetch with
  | .error _ => .error .transfer_error
  | .ok p => read_npy .i32 1 p

deriving instance DecidableEq for Except

/-- Result of one pipeline run together with the observation whether the
external reduction (`pacmap::fit_transform`) was invoked. -/
structure PipelineOutcome (α : Type) where
  result : Except RsError (ScatterData α)
  reduction_invoked : Bool
deriving DecidableEq, Repr

/-- `main.rs` lines 42-68: download the features, reshape them to
`(n_samples, n_features)`, download the labels, build the configuration,
run the external reduction `fit` and build the scatter payload.  Every
`?` aborts the run; no step compares the label count with the sample
count. -/
def run_pipeline [Inhabited α] (defaults : Configuration)
    (fit : Configuration → FMatrix α → Except RsError (FMatrix α))
    (fetch_x : Except Unit (NpyPayload α))
    (fetch_labels : Except Unit (NpyPayload Int)) : PipelineOutcome α :=
  match download_and_load_array2 fetch_x with
  | .error e => ⟨.error e, false⟩
  | .ok raw =>
    match to_feature_matrix raw with
    | .error e => ⟨.error e, false⟩
    | .ok x =>
      match download_and_load_array1 fetch_labels with
      | .error e => ⟨.error e, false⟩
      | .ok label_arr =>
        match fit (build_config defaults) x with
        | .error e => ⟨.error e, true⟩
        | .ok embedding =>
          match create_scatter_plot embedding label_arr.data with
          | .error e => ⟨.error e, true⟩
          | .ok s => ⟨.ok s, true⟩

/-- Row-major buffer of the `(n, 2)` matrix made of the first two columns
of `m`: row `i` contributes `[m.entry i 0, m.entry i 1]`. -/
def two_col_data [Inhabited α] (m : FMatrix α) : Nat → List α
  | 0 => []
  | n + 1 => two_col_data m n ++ [m.entry n 0, m.entry n 1]

/-- The `(n, 2)` matrix consisting of the first two columns of `m`. -/
def first_two_columns [Inhabited α] (m : FMatrix α) : FMatrix α :=
  ⟨m.n_rows, 2, two_col_data m m.n_rows⟩

/-- Modelled from the spec: the pixel normalization of the image-dataset
loader (§4.2, §8), which is not among this repository's sources.  A raw
pixel byte is cast to floating point and divided by 255; modelled over
exact rationals (`255.0 / 255.0` and `0.0 / 255.0` are exact in IEEE
arithmetic as well, their quotients being representable). -/
def normalize_pixel (b : Nat) : ℚ :=
  (b : ℚ) / 255

/-- Modelled from the spec: normalization applied to every pixel byte of
the concatenated image buffer. -/
def normalize_pixels (bs : List Nat) : List ℚ :=
  bs.map normalize_pixel

/-- Concrete scenario of §8: a feature payload of shape `(150, 4)`. -/
def scenario_fetch_x : Except Unit (NpyPayload Int) :=
  .ok (.well_formed .f32 [150, 4] (List.replicate 600 0))

/-- Concrete scenario of §8: a label payload with 149 labels. -/
def scenario_fetch_labels : Except Unit (NpyPayload Int) :=
  .ok (.well_formed .i32 [149] (List.replicate 149 0))

/-- Concrete scenario of §8: a stub reduction collaborator returning a
fixed `(150, 2)` embedding. -/
def scenario_fit : Configuration → FMatrix Int → Except RsError (FMatrix Int) :=
  fun _ _ => .ok ⟨150, 2, List.replicate 300 0⟩

/-- An arbitrary builder starting state for the concrete scenario. -/
def scenario_defaults : Configuration :=
  ⟨0, none, 0, 0⟩

/- ### Helper lemmas -/

theorem to_feature_matrix_ok_of_wf (raw : RawArray α)
    (hrank : 1 ≤ raw.shape.length) (hwf : raw.wf) :
    to_feature_matrix raw =
      .ok ⟨raw.shape.headD 0, (raw.shape.drop 1).prod, raw.data⟩ := by
  rcases raw with ⟨shape, data⟩
  cases shape with
  | nil => simp at hrank
  | cons a rest =>
    unfold RawArray.wf at hwf
    simp only at hwf
    simp [to_feature_matrix, hwf, List.prod_cons]

theorem getD_map_range {α : Type} (f : Nat → α) (d : α) {n i : Nat}
    (h : i < n) : ((List.range n).map f).getD i d = f i := by
  have hlen : i < ((List.range n).map f).length := by simpa using h
  rw [List.getD_eq_getElem _ _ hlen]
  simp

theorem two_col_data_length [Inhabited α] (m : FMatrix α) (n : Nat) :
    (two_col_data m n).length = 2 * n := by
  induction n with
  | zero => rfl
  | succ k ih => simp [two_col_data, ih]; omega

theorem two_col_data_getD [Inhabited α] (m : FMatrix α) {n i : Nat}
    (h : i < n) :
    (two_col_data m n).getD (2 * i) default = m.entry i 0 ∧
      (two_col_data m n).getD (2 * i + 1) default = m.entry i 1 := by
  induction n with
  | zero => omega
  | succ k ih =>
    rcases Nat.lt_succ_iff_lt_or_eq.mp h with hlt | heq
    · have h0 : 2 * i < (two_col_data m k).length := by
        rw [two_col_data_length]; omega
      have h1 : 2 * i + 1 < (two_col_data m k).length := by
        rw [two_col_data_length]; omega
      constructor
      · rw [two_col_data, List.getD_append _ _ _ _ h0]
        exact (ih hlt).1
      · rw [two_col_data, List.getD_append _ _ _ _ h1]
        exact (ih hlt).2
    · subst heq
      have hlen : (two_col_data m i).length = 2 * i := two_col_data_length m i
      constructor
      · rw [two_col_data, List.getD_append_right _ _ _ _ (by omega)]
        simp [hlen]
      · rw [two_col_data, List.getD_append_right _ _ _ _ (by omega)]
        simp [hlen]

theorem first_two_columns_entry [Inhabited α] (m : FMatrix α) {i : Nat}
    (h : i < m.n_rows) {j : Nat} (hj : j < 2) :
    (first_two_columns m).entry i j = m.entry i j := by
  unfold first_two_columns FMatrix.entry
  simp only
  interval_cases j
  · have := (two_col_data_getD m h).1
    rw [Nat.mul_comm 2 i] at this
    simpa [FMatrix.entry] using this
  · have := (two_col_data_getD m h).2
    rw [Nat.mul_comm 2 i] at this
    simpa [FMatrix.entry] using this

/- ### Claim theorems -/

/-- Claim C1: for every RawArray of rank ≥ 2 with shape `(a, b, c, ...)`
satisfying the RawArray invariant, the normalization step succeeds and
produces a matrix of shape `(a, b*c*...)` whose row-major buffer is the
input's row-major buffer unchanged (a pure, order-preserving reshape). -/
theorem c1_to_feature_matrix_pure_reshape (raw : RawArray α)
    (hrank : 2 ≤ raw.shape.length) (hwf : raw.wf) :
    to_feature_matrix raw =
      .ok ⟨raw.shape.headD 0, (raw.shape.drop 1).prod, raw.data⟩ :=
  to_feature_matrix_ok_of_wf raw (by omega) hwf

/-- Witness for C1 at the concrete input of shape `(2, 3, 2)` holding the
twelve naturals `0, ..., 11`. -/
theorem c1_witness :
    to_feature_matrix (⟨[2, 3, 2], List.range 12⟩ : RawArray Nat) =
      .ok ⟨2, 6, List.range 12⟩ :=
  c1_to_feature_matrix_pure_reshape _ (by decide) (by decide)

/-- Claim C8: for every input array of rank ≥ 2 satisfying the RawArray
invariant, the size-preservation condition of the reshape
(`n_samples * n_features = total element count`) holds by construction
from the shape decomposition, so the reshape's failure branch is
unreachable: the conversion always returns `.ok`. -/
theorem c8_reshape_failure_branch_unreachable (raw : RawArray α)
    (hrank : 2 ≤ raw.shape.length) (hwf : raw.wf) :
    raw.shape.headD 0 * (raw.shape.drop 1).prod = raw.data.length ∧
      ∃ m, to_feature_matrix raw = .ok m := by
  constructor
  · rcases raw with ⟨shape, data⟩
    cases shape with
    | nil => simp at hrank
    | cons a rest =>
      unfold RawArray.wf at hwf
      simp only at hwf
      simp [hwf, List.prod_cons]
  · exact ⟨_, to_feature_matrix_ok_of_wf raw (by omega) hwf⟩

/-- Witness for C8 at the concrete input of shape `(3, 2, 2)` holding
twelve integers. -/
theorem c8_witness :
    (⟨[3, 2, 2], List.range 12⟩ : RawArray Nat).shape.headD 0 *
        ((⟨[3, 2, 2], List.range 12⟩ : RawArray Nat).shape.drop 1).prod =
        (⟨[3, 2, 2], List.range 12⟩ : RawArray Nat).data.length ∧
      ∃ m, to_feature_matrix (⟨[3, 2, 2], List.range 12⟩ : RawArray Nat) =
        .ok m :=
  c8_reshape_failure_branch_unreachable _ (by decide) (by decide)

/-- Claim C2: on an embedding of shape `(n, 2)` and a label vector of
length `n`, `create_scatter_plot` produces a scatter series whose x, y and
label sequences all have length `n`, with `x[i] = embedding[i][0]` and
`y[i] = embedding[i][1]` in the input's sample order, and with the label
sequence copied unchanged. -/
theorem c2_create_scatter_plot_happy_path [Inhabited α] (m : FMatrix α)
    (labels : List Int) (hc : m.n_cols = 2) (hl : labels.length = m.n_rows) :
    ∃ s, create_scatter_plot m labels = .ok s ∧
      s.x.length = m.n_rows ∧ s.y.length = m.n_rows ∧
      s.color_labels.length = m.n_rows ∧ s.color_labels = labels ∧
      ∀ i, i < m.n_rows →
        s.x.getD i default = m.entry i 0 ∧
          s.y.getD i default = m.entry i 1 := by
  have h0 : create_scatter_plot m labels =
      .ok ⟨(List.range m.n_rows).map fun i => m.entry i 0,
           (List.range m.n_rows).map fun i => m.entry i 1,
           labels, 2, true, .markers⟩ := by
    unfold create_scatter_plot FMatrix.column
    rw [hc]
    norm_num
  refine ⟨_, h0, by simp, by simp, by simpa using hl, rfl, ?_⟩
  intro i hi
  exact ⟨getD_map_range _ _ hi, getD_map_range _ _ hi⟩

/-- Witness for C2 at the concrete `(2, 2)` embedding `[[1, 2], [3, 4]]`
with labels `[7, 8]`. -/
theorem c2_witness :
    ∃ s, create_scatter_plot (⟨2, 2, [1, 2, 3, 4]⟩ : FMatrix Int) [7, 8] =
        .ok s ∧
      s.x.length = 2 ∧ s.y.length = 2 ∧ s.color_labels.length = 2 ∧
      s.color_labels = [7, 8] ∧
      ∀ i, i < 2 →
        s.x.getD i default = (⟨2, 2, [1, 2, 3, 4]⟩ : FMatrix Int).entry i 0 ∧
          s.y.getD i default =
            (⟨2, 2, [1, 2, 3, 4]⟩ : FMatrix Int).entry i 1 :=
  c2_create_scatter_plot_happy_path _ _ rfl rfl

/-- Claim C10: for every embedding with at least 2 columns,
`create_scatter_plot` depends only on columns 0 and 1 and the labels: its
output equals the output on the `(n, 2)` matrix of the first two columns,
extra columns being ignored rather than rejected. -/
theorem c10_extra_columns_ignored [Inhabited α] (m : FMatrix α)
    (labels : List Int) (h2 : 2 ≤ m.n_cols) :
    create_scatter_plot m labels =
      create_scatter_plot (first_two_columns m) labels := by
  have hrows : (first_two_columns m).n_rows = m.n_rows := rfl
  have hcols : (first_two_columns m).n_cols = 2 := rfl
  have e0 : (first_two_columns m).column 0 = m.column 0 := by
    unfold FMatrix.column
    rw [hrows, hcols, if_pos (by omega), if_pos (by omega)]
    congr 1
    apply List.map_congr_left
    intro i hi
    exact first_two_columns_entry m (List.mem_range.mp hi) (by omega)
  have e1 : (first_two_columns m).column 1 = m.column 1 := by
    unfold FMatrix.column
    rw [hrows, hcols, if_pos (by omega), if_pos (by omega)]
    congr 1
    apply List.map_congr_left
    intro i hi
    exact first_two_columns_entry m (List.mem_range.mp hi) (by omega)
  unfold create_scatter_plot
  rw [e0, e1]

/-- Witness for C10 at the concrete `(1, 3)` embedding `[[1, 2, 3]]` with
label `[5]`. -/
theorem c10_witness :
    create_scatter_plot (⟨1, 3, [1, 2, 3]⟩ : FMatrix Int) [5] =
      create_scatter_plot (first_two_columns (⟨1, 3, [1, 2, 3]⟩ : FMatrix Int))
        [5] :=
  c10_extra_columns_ignored _ _ (by decide)

/-- Counterexample to claim C4 as stated: the `(1, 3)` embedding
`[[1, 2, 3]]` has dimensionality 3 ≠ 2, yet `create_scatter_plot`
returns a scatter series instead of signalling `DimensionMismatchError`. -/
theorem c4_counterexample :
    create_scatter_plot (⟨1, 3, [(1 : Int), 2, 3]⟩ : FMatrix Int) [0] =
      .ok ⟨[1], [2], [0], 2, true, .markers⟩ := by
  decide

/-- Claim C4 amended: `create_scatter_plot` performs no dimensionality
validation and never signals `DimensionMismatchError`.  With at least two
columns it produces a scatter series (extra columns ignored); with fewer
than two columns it fails only through an out-of-bounds column access
(a panic), not a signalled error value. -/
theorem c4_amended_no_dimension_check [Inhabited α] :
    (∀ (m : FMatrix α) (labels : List Int), 2 ≤ m.n_cols →
        ∃ s, create_scatter_plot m labels = .ok s) ∧
      ∀ (m : FMatrix α) (labels : List Int), m.n_cols < 2 →
        create_scatter_plot m labels = .error .panic := by
  constructor
  · intro m labels h
    refine ⟨⟨(List.range m.n_rows).map fun i => m.entry i 0,
             (List.range m.n_rows).map fun i => m.entry i 1,
             labels, 2, true, .markers⟩, ?_⟩
    unfold create_scatter_plot FMatrix.column
    rw [if_pos (by omega), if_pos (by omega)]
  · intro m labels h
    unfold create_scatter_plot FMatrix.column
    by_cases h0 : 0 < m.n_cols
    · rw [if_pos h0, if_neg (by omega)]
    · rw [if_neg h0]

/-- Witness for C4's amended claim: a `(1, 3)` embedding yields a scatter
series; a `(2, 1)` embedding panics. -/
theorem c4_witness :
    (∃ s, create_scatter_plot (⟨1, 3, [(5 : Int), 6, 7]⟩ : FMatrix Int) [9] =
        .ok s) ∧
      create_scatter_plot (⟨2, 1, [(5 : Int), 6]⟩ : FMatrix Int) [9] =
        .error .panic :=
  ⟨c4_amended_no_dimension_check.1 _ _ (by decide),
   c4_amended_no_dimension_check.2 _ _ (by decide)⟩

/-- Counterexample to claim C5 as stated: on the `(1, 2)` embedding
`[[1, 2]]` with the two labels `[7, 8]`, `create_scatter_plot` returns a
scatter series with one coordinate pair but two labels instead of
signalling `ShapeMismatchError`. -/
theorem c5_counterexample :
    create_scatter_plot (⟨1, 2, [(1 : Int), 2]⟩ : FMatrix Int) [7, 8] =
        .ok ⟨[1], [2], [7, 8], 2, true, .markers⟩ ∧
      (⟨[1], [2], [7, 8], 2, true, .markers⟩ : ScatterData Int).x.length ≠
        (⟨[1], [2], [7, 8], 2, true, .markers⟩ :
          ScatterData Int).color_labels.length := by
  decide

/-- Claim C5 amended: `create_scatter_plot` performs no label-count
validation: on any `(n, 2)` embedding it returns a scatter series whose
coordinate sequences have length `n` and whose label sequence is the input
labels unchanged, whatever their number, so mismatched counts yield
unequal coordinate and label lengths rather than a `ShapeMismatchError`. -/
theorem c5_amended_no_label_length_check [Inhabited α] (m : FMatrix α)
    (labels : List Int) (hc : m.n_cols = 2) :
    ∃ s, create_scatter_plot m labels = .ok s ∧
      s.x.length = m.n_rows ∧ s.y.length = m.n_rows ∧
      s.color_labels = labels := by
  have h0 : create_scatter_plot m labels =
      .ok ⟨(List.range m.n_rows).map fun i => m.entry i 0,
           (List.range m.n_rows).map fun i => m.entry i 1,
           labels, 2, true, .markers⟩ := by
    unfold create_scatter_plot FMatrix.column
    rw [hc]
    norm_num
  exact ⟨_, h0, by simp, by simp, rfl⟩

/-- Witness for C5's amended claim at a `(2, 2)` embedding with a single
label. -/
theorem c5_witness :
    ∃ s, create_scatter_plot (⟨2, 2, [(1 : Int), 2, 3, 4]⟩ : FMatrix Int)
        [9] = .ok s ∧
      s.x.length = 2 ∧ s.y.length = 2 ∧ s.color_labels = [9] :=
  c5_amended_no_label_length_check _ _ rfl

theorem read_npy_ok_iff {α : Type} (dt : DType) (r : Nat) (d : DType)
    (s : List Nat) (e : List α) :
    (∃ a, read_npy dt r (.well_formed d s e) = .ok a) ↔
      d = dt ∧ s.length = r ∧ e.length = s.prod := by
  by_cases h1 : d = dt
  · by_cases h2 : s.length = r
    · by_cases h3 : e.length = s.prod
      · simp [read_npy, h1, h2, h3]
      · simp [read_npy, h1, h2, h3]
    · simp [read_npy, h1, h2]
  · simp [read_npy, h1]

theorem read_npy_ok_or_parse {α : Type} (dt : DType) (r : Nat)
    (p : NpyPayload α) :
    (∃ a, read_npy dt r p = .ok a) ∨
      read_npy dt r p = .error .parse_error := by
  cases p with
  | malformed => exact .inr rfl
  | well_formed d s e =>
    by_cases h1 : d = dt
    · by_cases h2 : s.length = r
      · by_cases h3 : e.length = s.prod
        · exact .inl ⟨⟨s, e⟩, by simp [read_npy, h1, h2, h3]⟩
        · exact .inr (by simp [read_npy, h1, h2, h3])
      · exact .inr (by simp [read_npy, h1, h2])
    · exact .inr (by simp [read_npy, h1])

theorem download_and_load_array2_ok_inv {α : Type}
    {fetch : Except Unit (NpyPayload α)} {raw : RawArray α}
    (h : download_and_load_array2 fetch = .ok raw) :
    raw.shape.length = 2 ∧ raw.wf := by
  cases fetch with
  | error u => exact Except.noConfusion h
  | ok p =>
    cases p with
    | malformed => exact Except.noConfusion h
    | well_formed d s e =>
      by_cases h1 : d = DType.f32
      · by_cases h2 : s.length = 2
        · by_cases h3 : e.length = s.prod
          · have hraw : (⟨s, e⟩ : RawArray α) = raw := by
              have h4 : read_npy .f32 2 (.well_formed d s e) = .ok raw := h
              simp [read_npy, h1, h2, h3] at h4
              exact h4
            rw [← hraw]
            exact ⟨h2, h3⟩
          · simp [download_and_load_array2, read_npy, h1, h2, h3] at h
        · simp [download_and_load_array2, read_npy, h1, h2] at h
      · simp [download_and_load_array2, read_npy, h1] at h

/-- Claim C6: the configuration assembled for the external reduction call
carries exactly the four fixed values — embedding dimensionality 2,
nearest-neighbor override 10, mid-near pair ratio 0.5 and far pair ratio
2.0 — whatever state the builder starts from: no other input influences
it. -/
theorem c6_config_fixed_values (defaults : Configuration) :
    build_config defaults =
      { embedding_dimensions := 2, override_neighbors := some 10,
        mid_near_ratio := 1 / 2, far_pair_ratio := 2 } :=
  rfl

/-- Claim C7: each loader performs a single fetch attempt whose outcome
fully determines the result; a failed retrieval yields `TransferError`; a
malformed header yields `ParseError`; a parsed array is returned exactly
when the declared element type is the supported one (`f32` for the rank-2
loader, `i32` for the rank-1 loader), the declared rank matches the
expected rank (2 resp. 1) and the element count matches the shape; every
other well-formed payload yields `ParseError`. -/
theorem c7_loader_characterization :
    (∀ (α : Type) (u : Unit),
        download_and_load_array2 (α := α) (.error u) =
          .error .transfer_error) ∧
      (∀ (u : Unit),
        download_and_load_array1 (.error u) = .error .transfer_error) ∧
      (∀ (α : Type),
        download_and_load_array2 (α := α) (.ok .malformed) =
          .error .parse_error) ∧
      (download_and_load_array1 (.ok .malformed) = .error .parse_error) ∧
      (∀ (α : Type) (d : DType) (s : List Nat) (e : List α),
        (∃ a, download_and_load_array2 (.ok (.well_formed d s e)) = .ok a) ↔
          d = .f32 ∧ s.length = 2 ∧ e.length = s.prod) ∧
      (∀ (d : DType) (s : List Nat) (e : List Int),
        (∃ a, download_and_load_array1 (.ok (.well_formed d s e)) = .ok a) ↔
          d = .i32 ∧ s.length = 1 ∧ e.length = s.prod) ∧
      (∀ (α : Type) (p : NpyPayload α),
        (∃ a, download_and_load_array2 (.ok p) = .ok a) ∨
          download_and_load_array2 (.ok p) = .error .parse_error) ∧
      ∀ (p : NpyPayload Int),
        (∃ a, download_and_load_array1 (.ok p) = .ok a) ∨
          download_and_load_array1 (.ok p) = .error .parse_error := by
  refine ⟨fun α u => rfl, fun u => rfl, fun α => rfl, rfl, ?_, ?_, ?_, ?_⟩
  · intro α d s e
    exact read_npy_ok_iff .f32 2 d s e
  · intro d s e
    exact read_npy_ok_iff .i32 1 d s e
  · intro α p
    exact read_npy_ok_or_parse .f32 2 p
  · intro p
    exact read_npy_ok_or_parse .i32 1 p

set_option maxRecDepth 8000 in
/-- Counterexample to claim C3 as stated: with a `(150, 4)` feature
payload and 149 labels — mismatched sample counts — the pipeline does not
signal `ShapeMismatchError` and does invoke the external reduction. -/
theorem c3_counterexample :
    (run_pipeline scenario_defaults scenario_fit scenario_fetch_x
          scenario_fetch_labels).reduction_invoked = true ∧
      (run_pipeline scenario_defaults scenario_fit scenario_fetch_x
          scenario_fetch_labels).result ≠ .error .shape_mismatch_error := by
  decide

/-- Claim C3 amended: the pipeline performs no sample-count comparison
between features and labels: the external reduction is invoked exactly
when both downloads succeed, regardless of the label count, and no
`ShapeMismatchError` is raised on mismatched counts. -/
theorem c3_amended_no_sample_count_check [Inhabited α]
    (defaults : Configuration)
    (fit : Configuration → FMatrix α → Except RsError (FMatrix α))
    (fetch_x : Except Unit (NpyPayload α))
    (fetch_labels : Except Unit (NpyPayload Int)) :
    (run_pipeline defaults fit fetch_x fetch_labels).reduction_invoked =
      ((download_and_load_array2 fetch_x).isOk &&
        (download_and_load_array1 fetch_labels).isOk) := by
  unfold run_pipeline
  cases hx : download_and_load_array2 fetch_x with
  | error e => simp [Except.isOk, Except.toBool]
  | ok raw =>
    obtain ⟨hr2, hwf⟩ := download_and_load_array2_ok_inv hx
    simp only [Except.isOk, Except.toBool, Bool.true_and]
    rw [to_feature_matrix_ok_of_wf raw (by omega) hwf]
    cases hl : download_and_load_array1 fetch_labels with
    | error e => simp [Except.toBool]
    | ok la =>
      simp only [Except.toBool]
      split
      · rfl
      · split <;> rfl

/-- Claim C9 (pixel normalization, modelled over exact rationals):
normalization divides each raw pixel byte by 255, elementwise over the
whole buffer; byte 255 maps to exactly 1, byte 0 to exactly 0, and byte
128 to within 0.001 of 0.502. -/
theorem c9_pixel_normalization :
    (∀ (bs : List Nat) (i : Nat),
        (normalize_pixels bs).getD i 0 = (bs.getD i 0 : ℚ) / 255) ∧
      normalize_pixel 255 = 1 ∧ normalize_pixel 0 = 0 ∧
      |normalize_pixel 128 - 502 / 1000| < 1 / 1000 := by
  refine ⟨?_, by norm_num [normalize_pixel], by norm_num [normalize_pixel],
    ?_⟩
  · intro bs i
    by_cases h : i < bs.length
    · have hm : i < (normalize_pixels bs).length := by
        simpa [normalize_pixels] using h
      rw [List.getD_eq_getElem _ _ hm, List.getD_eq_getElem _ _ h]
      simp [normalize_pixels, normalize_pixel]
    · have hm : (normalize_pixels bs).length ≤ i := by
        simpa [normalize_pixels] using Nat.le_of_not_lt h
      rw [List.getD_eq_default _ _ hm,
        List.getD_eq_default _ _ (Nat.le_of_not_lt h)]
      norm_num
  · rw [abs_lt]
    constructor <;> norm_num [normalize_pixel]
